import Mathlib

/-!
# Verification of cppcheck-codequality (src/__init__.py)

Shallow embedding of the conversion core of `cppcheck-codequality`:
`__convert`, `__get_codeclimate_category` and `convert_file` from
`src/__init__.py`, together with models of the library collaborators the
code uses (`hashlib.md5`, `linecache.getline`, `json.dumps`, the
`xmltodict` output shape, and the file system for `open`).

Conventions:
* Python machine-free integers are `Int` / `Nat` (no overflow in CPython).
* Python dicts built by the code are Lean structures; the aliasing that the
  code creates via shallow `dict(...)` copies of the module-level template
  `CODE_QUAL_ELEMENT` is made explicit by threading the template's nested
  `location`/`positions`/`begin` contents as state through the conversion.
* Fallible Python code (KeyError on dict lookup, IndexError, AttributeError,
  FileNotFoundError) is `Except PyErr`.
-/

namespace CppcheckCQ

/-! ## hashlib.md5 — RFC 1321, modelled over `Nat` with explicit `% 2^32` -/

/-- 2^32, the word modulus of MD5. -/
def M32 : Nat := 4294967296

/-- Bitwise complement within 32 bits. -/
def mnot (x : Nat) : Nat := 4294967295 - x % M32

/-- Left-rotation of a 32-bit word by `n` (0 ≤ n < 32). -/
def rotl (x n : Nat) : Nat :=
  ((x % M32) * 2 ^ n + (x % M32) / 2 ^ (32 - n)) % M32

/-- The MD5 sine-derived round constants `K[0..63]`. -/
def mdK : List Nat := [
  3614090360, 3905402710, 606105819, 3250441966, 4118548399, 1200080426,
  2821735955, 4249261313, 1770035416, 2336552879, 4294925233, 2304563134,
  1804603682, 4254626195, 2792965006, 1236535329, 4129170786, 3225465664,
  643717713, 3921069994, 3593408605, 38016083, 3634488961, 3889429448,
  568446438, 3275163606, 4107603335, 1163531501, 2850285829, 4243563512,
  1735328473, 2368359562, 4294588738, 2272392833, 1839030562, 4259657740,
  2763975236, 1272893353, 4139469664, 3200236656, 681279174, 3936430074,
  3572445317, 76029189, 3654602809, 3873151461, 530742520, 3299628645,
  4096336452, 1126891415, 2878612391, 4237533241, 1700485571, 2399980690,
  4293915773, 2240044497, 1873313359, 4264355552, 2734768916, 1309151649,
  4149444226, 3174756917, 718787259, 3951481745]

/-- The MD5 per-round left-rotation amounts `s[0..63]`. -/
def mdS : List Nat := [
  7, 12, 17, 22, 7, 12, 17, 22, 7, 12, 17, 22, 7, 12, 17, 22,
  5, 9, 14, 20, 5, 9, 14, 20, 5, 9, 14, 20, 5, 9, 14, 20,
  4, 11, 16, 23, 4, 11, 16, 23, 4, 11, 16, 23, 4, 11, 16, 23,
  6, 10, 15, 21, 6, 10, 15, 21, 6, 10, 15, 21, 6, 10, 15, 21]

/-- Running state of one MD5 compression. -/
structure MDState where
  a : Nat
  b : Nat
  c : Nat
  d : Nat
deriving Repr, DecidableEq

/-- One MD5 round, acting on state `st` with message words `m` at index `i`. -/
def mdRound (m : List Nat) (st : MDState) (i : Nat) : MDState :=
  let f :=
    if i < 16 then Nat.lor (Nat.land st.b st.c) (Nat.land (mnot st.b) st.d)
    else if i < 32 then Nat.lor (Nat.land st.d st.b) (Nat.land (mnot st.d) st.c)
    else if i < 48 then Nat.xor (Nat.xor st.b st.c) st.d
    else Nat.xor st.c (Nat.lor st.b (mnot st.d))
  let g :=
    if i < 16 then i
    else if i < 32 then (5 * i + 1) % 16
    else if i < 48 then (3 * i + 5) % 16
    else (7 * i) % 16
  let f2 := (f + st.a + mdK.getD i 0 + m.getD g 0) % M32
  ⟨st.d, (st.b + rotl f2 (mdS.getD i 0)) % M32, st.b, st.c⟩

/-- One MD5 block compression: 64 rounds, then add into the accumulator. -/
def mdBlock (st : MDState) (m : List Nat) : MDState :=
  let r := (List.range 64).foldl (mdRound m) st
  ⟨(st.a + r.a) % M32, (st.b + r.b) % M32, (st.c + r.c) % M32, (st.d + r.d) % M32⟩

/-- Group a list of bytes into little-endian 32-bit words (4 bytes each). -/
def toWords : List Nat → List Nat
  | b0 :: b1 :: b2 :: b3 :: rest =>
      (b0 + b1 * 256 + b2 * 65536 + b3 * 16777216) :: toWords rest
  | _ => []

/-- Group a word list into blocks of 16 words (the input length is a
multiple of 16 after padding). -/
def toBlocks : List Nat → List (List Nat)
  | w0 :: w1 :: w2 :: w3 :: w4 :: w5 :: w6 :: w7 ::
    w8 :: w9 :: w10 :: w11 :: w12 :: w13 :: w14 :: w15 :: rest =>
      [w0, w1, w2, w3, w4, w5, w6, w7, w8, w9, w10, w11, w12, w13, w14, w15]
        :: toBlocks rest
  | _ => []

/-- MD5 padding: append `0x80`, zeros to 56 mod 64, then the 64-bit
little-endian bit length. -/
def mdPad (msg : List Nat) : List Nat :=
  let len := msg.length
  let bitLen := 8 * len
  let zeros := (119 - len % 64) % 64
  msg ++ [128] ++ List.replicate zeros 0 ++
    [bitLen % 256, bitLen / 256 % 256, bitLen / 65536 % 256,
     bitLen / 16777216 % 256, bitLen / 4294967296 % 256,
     bitLen / 1099511627776 % 256, bitLen / 281474976710656 % 256,
     bitLen / 72057594037927936 % 256]

/-- The initial MD5 chaining value. -/
def mdInit : MDState := ⟨1732584193, 4023233417, 2562383102, 271733878⟩

/-- The four bytes of a 32-bit word, little-endian. -/
def wordBytes (w : Nat) : List Nat :=
  [w % 256, w / 256 % 256, w / 65536 % 256, w / 16777216 % 256]

/-- MD5 digest of a byte string, as its 16 digest bytes. -/
def md5Bytes (msg : List Nat) : List Nat :=
  let st := (toBlocks (toWords (mdPad msg))).foldl mdBlock mdInit
  wordBytes st.a ++ wordBytes st.b ++ wordBytes st.c ++ wordBytes st.d

/-- A lowercase hexadecimal digit. -/
def hexDigit (n : Nat) : Char :=
  if n < 10 then Char.ofNat (48 + n) else Char.ofNat (87 + n)

/-- Render bytes as lowercase hexadecimal characters, two per byte. -/
def hexBytes : List Nat → List Char
  | [] => []
  | b :: rest => hexDigit (b / 16 % 16) :: hexDigit (b % 16) :: hexBytes rest

/-- UTF-8 encoding of one code point. -/
def utf8Bytes (c : Nat) : List Nat :=
  if c < 128 then [c]
  else if c < 2048 then [192 + c / 64, 128 + c % 64]
  else if c < 65536 then [224 + c / 4096, 128 + c / 64 % 64, 128 + c % 64]
  else [240 + c / 262144, 128 + c / 4096 % 64, 128 + c / 64 % 64, 128 + c % 64]

/-- UTF-8 bytes of a string (`str.encode("utf-8")`). -/
def strBytes (s : String) : List Nat :=
  s.data.foldr (fun c acc => utf8Bytes c.toNat ++ acc) []

/-- `hashlib.md5(s.encode("utf-8")).hexdigest()`: the 32-character lowercase
hexadecimal MD5 digest of a string. -/
def md5hex (s : String) : String :=
  String.mk (hexBytes (md5Bytes (strBytes s)))

/-! ## Python string helpers -/

/-- Characters removed by Python `str.strip()` (the ASCII whitespace set;
the code only strips source-code lines). -/
def isPySpace (c : Char) : Bool :=
  c = ' ' || c = '\t' || c = '\n' || c = '\r' || c = '\x0b' || c = '\x0c'

/-- Python `s.strip()`: remove leading and trailing whitespace. -/
def pyStrip (s : String) : String :=
  String.mk (((s.data.dropWhile isPySpace).reverse.dropWhile isPySpace).reverse)

/-- `hay` starts with `needle` (helper for the substring test). -/
def hasPre : List Char → List Char → Bool
  | [], _ => true
  | _ :: _, [] => false
  | a :: as, b :: bs => a == b && hasPre as bs

/-- `needle` occurs somewhere in `hay` (helper for the substring test). -/
def hasSub : List Char → List Char → Bool
  | n, [] => hasPre n []
  | n, b :: bs => hasPre n (b :: bs) || hasSub n bs

/-- Python `needle in hay` on strings. -/
def strContains (hay needle : String) : Bool := hasSub needle.data hay.data

/-- Helper for `pySplitNl`: split a character list at every newline. -/
def splitNlChars : List Char → List (List Char)
  | [] => [[]]
  | c :: rest =>
      let r := splitNlChars rest
      if c == '\n' then [] :: r
      else
        match r with
        | [] => [[c]]
        | g :: gs => (c :: g) :: gs

/-- Python `s.split("\n")`: split at every newline, keeping empty pieces
(`""` splits to `[""]`). -/
def pySplitNl (s : String) : List String :=
  (splitNlChars s.data).map String.mk

/-! ## linecache model

`linecache.getline(path, line)` reads line `line` (1-based) of `path` and
returns `""` when the file cannot be read or the line number is out of
range; it never raises.  The file system is modelled as a partial map from
paths to the list of lines of readable files. -/

/-- Model of the source-file system seen by `linecache`. -/
abbrev FS := String → Option (List String)

/-- `linecache.getline(path, line)`. -/
def getline (fs : FS) (path : String) (line : Int) : String :=
  match fs path with
  | none => ""
  | some lines =>
      if 1 ≤ line ∧ line ≤ lines.length then lines.getD (line - 1).toNat ""
      else ""

/-! ## Input data model

Shape of one `<error>` element of the cppcheck XML after `xmltodict.parse`:
attributes become string-keyed entries; a single nested `<location>`
becomes a dict, several become a list.  `@line` and `@column` are
`int(...)`-converted by the code, so they are carried as `Int` here
(`@file`, `@id`, `@severity`, `@msg` and `@cwe` stay strings);
`@column` and `@file0` are optional attributes, so they are `Option`. -/

/-- One `<location>` element (attributes `file`, optional `file0`, `line`,
optional `column`). -/
structure XmlLocation where
  file : String
  file0 : Option String
  line : Int
  column : Option Int
deriving Repr, DecidableEq

/-- `error["location"]`: a single dict or a list, per xmltodict. -/
inductive LocField where
  | single : XmlLocation → LocField
  | list : List XmlLocation → LocField
deriving Repr, DecidableEq

/-- One `<error>` element.  `location = none` models an error element with
no `location` key at all. -/
structure CppcheckError where
  id : String
  severity : String
  msg : String
  cwe : Option String
  location : Option LocField
deriving Repr, DecidableEq

/-- Python exceptions that the modelled code can raise. -/
inductive PyErr where
  | keyError
  | indexError
  | attributeError
  | fileNotFoundError
deriving Repr, DecidableEq

/-! ## Output data model

`tmp_dict` starts as a SHALLOW copy (`dict(CODE_QUAL_ELEMENT)`) of the
module-level template, so its `location` value is the very same nested
dict as the template's.  An `Issue` records the values the dict holds at
the moment of `deepcopy(tmp_dict)` (the append at the end of the loop
body). -/

/-- The contents of one `location` dict:
`{"path": ..., "positions": {"begin": {"line": ..., "column": ...}}}`. -/
structure Location where
  path : String
  line : Int
  column : Int
deriving Repr, DecidableEq

/-- The value of the shared nested `location` dict of `CODE_QUAL_ELEMENT`
as the module defines it: `{"path": "", "positions": {"begin":
{"line": -1, "column": -1}}}`. -/
def initTemplateLoc : Location := ⟨"", -1, -1⟩

/-- Snapshot of one converted issue dict (taken by `deepcopy` at append
time). -/
structure Issue where
  type : String
  check_name : String
  description : String
  categories : List String
  fingerprint : String
  location : Location
  other_locations : Option (List Location)
  content : Option String
deriving Repr, DecidableEq

mutual
/-- JSON values (model of what `json.dumps` serializes). -/
inductive JVal where
  | str : String → JVal
  | int : Int → JVal
  | arr : JList → JVal
  | obj : JObj → JVal
deriving Repr, DecidableEq

/-- A JSON array's elements. -/
inductive JList where
  | nil : JList
  | cons : JVal → JList → JList
deriving Repr, DecidableEq

/-- A JSON object's key-value pairs, in insertion order. -/
inductive JObj where
  | nil : JObj
  | cons : String → JVal → JObj → JObj
deriving Repr, DecidableEq
end

/-- Keys of a JSON object, in insertion order. -/
def jsonKeys : JObj → List String
  | .nil => []
  | .cons k _ rest => k :: jsonKeys rest

/-- Build a `JList` from a Lean list. -/
def jlist : List JVal → JList
  | [] => .nil
  | v :: rest => .cons v (jlist rest)

/-- The `location` dict as a JSON object. -/
def locationJson (l : Location) : JVal :=
  .obj (.cons "path" (.str l.path)
    (.cons "positions"
      (.obj (.cons "begin"
        (.obj (.cons "line" (.int l.line)
          (.cons "column" (.int l.column) .nil))) .nil)) .nil))

/-- One issue dict as a JSON object, keys in the insertion order the code
produces: the six template keys first (`type`, `check_name`,
`description`, `categories`, `fingerprint`, `location`), then
`other_locations` and `content` when the code added them. -/
def issueJson (i : Issue) : JVal :=
  .obj (.cons "type" (.str i.type)
    (.cons "check_name" (.str i.check_name)
      (.cons "description" (.str i.description)
        (.cons "categories" (.arr (jlist (i.categories.map JVal.str)))
          (.cons "fingerprint" (.str i.fingerprint)
            (.cons "location" (locationJson i.location)
              (match i.other_locations, i.content with
               | none, none => .nil
               | some ols, none =>
                   .cons "other_locations" (.arr (jlist (ols.map locationJson))) .nil
               | none, some c =>
                   .cons "content" (.obj (.cons "data" (.str c) .nil)) .nil
               | some ols, some c =>
                   .cons "other_locations" (.arr (jlist (ols.map locationJson)))
                     (.cons "content" (.obj (.cons "data" (.str c) .nil)) .nil))))))))

/-- Top-level keys of an issue as a JSON object (helper for stating which
fields an emitted record carries). -/
def issueKeys (i : Issue) : List String :=
  match issueJson i with
  | .obj o => jsonKeys o
  | _ => []

/-! ## Severity mapping (`__get_codeclimate_category`) -/

/-- The fixed `map_severity_to_category` dict. -/
def map_severity_to_category : String → Option String
  | "error" => some "Bug Risk"
  | "warning" => some "Bug Risk"
  | "style" => some "Style"
  | "performance" => some "Performance"
  | "portability" => some "Compatibility"
  | "information" => some "Style"
  | _ => none

/-- `__get_codeclimate_category`: dict lookup, raising `KeyError` on a
severity outside the table. -/
def get_codeclimate_category (cppcheck_severity : String) : Except PyErr String :=
  match map_severity_to_category cppcheck_severity with
  | some c => .ok c
  | none => .error .keyError

/-- The closed severity set of the table. -/
def knownSeverities : List String :=
  ["error", "warning", "style", "performance", "portability", "information"]

/-! ## Fingerprint (`__convert`, lines 228-242) -/

/-- `int(math.ceil(line / 10.0)) * 10`: the line number rounded up to the
nearest multiple of 10 (exact ceiling; realistic line numbers are far from
any float-precision edge). -/
def ceil10 (line : Int) : Int := ((line + 9).ediv 10) * 10

/-- The composite fingerprint string and its MD5, as `__convert` builds it:
`path + ":" + str(ceil(line/10)*10) + "-" + rule + "-" + codeline.strip()`,
hashed with `hashlib.md5(...).hexdigest()`.  `codeline` is the raw source
line (the code applies `.strip()` to `linecache.getline(...)`). -/
def fingerprintOf (path : String) (line : Int) (rule : String)
    (codeline : String) : String :=
  md5hex (path ++ ":" ++ toString (ceil10 line) ++ "-" ++ rule ++ "-"
    ++ pyStrip codeline)

/-! ## `__convert`: one error record

The loop body, lines 154-245.  The mutable state threaded through is the
value of the shared nested `location` dict of `CODE_QUAL_ELEMENT` (the
shallow `dict(...)` copies alias it). -/

/-- Lines 184-195: the loop over secondary locations.  `loc_other` is a
shallow copy of the template `location` dict, so its `positions.begin`
dict is the shared one: the line/column writes mutate the shared state
(threaded here as `(line, column)`), and `deepcopy(loc_other)` snapshots
the values current at that moment.  A missing `@column` raises `KeyError`
(the `int(error[...]["@column"])` lookup); note its `@line` write has
already hit the shared dict by then, which the enclosing conversion
overwrites or discards. -/
def processOtherLocs (beginSt : Int × Int) (locs : List XmlLocation) :
    Except PyErr ((Int × Int) × List Location) :=
  match locs with
  | [] => .ok (beginSt, [])
  | l :: rest =>
      match l.column with
      | none => .error .keyError
      | some c =>
          match processOtherLocs (l.line, c) rest with
          | .error e => .error e
          | .ok (stFin, others) => .ok (stFin, ⟨l.file, l.line, c⟩ :: others)

/-- Lines 172-207: determine the primary `path`/`line`/`column` and the
`other_locations` list from `error["location"]`.  Returns
`(path, line, column, other_locations?)`.
* list form: `@file0` on the first entry wins over `@file`; `@line` and
  `@column` of the first entry are read unguarded (`KeyError` when
  `@column` is absent, `IndexError` on an empty list); the remaining
  entries go through `processOtherLocs`, and the `other_locations` key is
  created only when that loop ran at least once.
* dict form: `@file` (ignoring any `@file0`), `@line`, and `@column`
  defaulting to `0` when absent. -/
def processLocations (tmplLoc : Location) (lf : LocField) :
    Except PyErr (String × Int × Int × Option (List Location)) :=
  match lf with
  | .list [] => .error .indexError
  | .list (l0 :: rest) =>
      let path := match l0.file0 with
        | some f0 => f0
        | none => l0.file
      match l0.column with
      | none => .error .keyError
      | some col =>
          match processOtherLocs (tmplLoc.line, tmplLoc.column) rest with
          | .error e => .error e
          | .ok (_, others) =>
              .ok (path, l0.line, col,
                   if rest.isEmpty then none else some others)
  | .single l =>
      let col := match l.column with
        | some c => c
        | none => 0
      .ok (l.file, l.line, col, none)

/-- The loop body of `__convert` (lines 154-245) for one `<error>`
element: skips elements without a `location` key, raises `KeyError` on an
unknown severity, processes locations, prefixes the CWE tag, fingerprints,
and appends `deepcopy(tmp_dict)`.  Takes and returns the value of the
shared template `location` dict (lines 205-207 overwrite it with the
primary path/line/column).  Returns `none` for a skipped element. -/
def convertError (fs : FS) (tmplLoc : Location) (error : CppcheckError) :
    Except PyErr (Location × Option Issue) :=
  match error.location with
  | none => .ok (tmplLoc, none)
  | some lf =>
      let rule := error.id
      match get_codeclimate_category error.severity with
      | .error e => .error e
      | .ok cat =>
          let cats := pySplitNl cat ++ [error.severity]
          match processLocations tmplLoc lf with
          | .error e => .error e
          | .ok (path, line, column, others) =>
              let newTmpl : Location := ⟨path, line, column⟩
              let description :=
                match error.cwe with
                | some cwe_id => "[CWE-" ++ cwe_id ++ "] " ++ error.msg
                | none => error.msg
              let content :=
                match error.cwe with
                | some cwe_id =>
                    some ("Refer to [CWE-" ++ cwe_id
                      ++ "](https://cwe.mitre.org/data/definitions/"
                      ++ cwe_id ++ ".html)")
                | none => none
              let codeline := pyStrip (getline fs path line)
              let fingerprint_str := path ++ ":" ++ toString (ceil10 line)
                ++ "-" ++ rule ++ "-" ++ codeline
              .ok (newTmpl, some
                { type := "issue"
                  check_name := rule
                  description := description
                  categories := cats
                  fingerprint := md5hex fingerprint_str
                  location := newTmpl
                  other_locations := others
                  content := content })

/-- The full loop of `__convert` over the normalized error list,
accumulating `dict_out` in order. -/
def convertErrors (fs : FS) (tmplLoc : Location) :
    List CppcheckError → Except PyErr (Location × List Issue)
  | [] => .ok (tmplLoc, [])
  | e :: rest =>
      match convertError fs tmplLoc e with
      | .error err => .error err
      | .ok (tmpl', oi) =>
          match convertErrors fs tmpl' rest with
          | .error err => .error err
          | .ok (tmplFin, out) =>
              .ok (tmplFin, match oi with
                            | none => out
                            | some i => i :: out)

/-! ## `json.dumps` model

Minimal model of the stdlib serializer for the values the converter
produces (default separators `", "` and `": "`; the usual escapes for
quote, backslash and ASCII control characters that occur in practice). -/

/-- Escape one character for a JSON string literal. -/
def jsonEscChar (c : Char) : String :=
  if c = '"' then "\\\""
  else if c = '\\' then "\\\\"
  else if c = '\n' then "\\n"
  else if c = '\t' then "\\t"
  else if c = '\r' then "\\r"
  else String.singleton c

/-- A JSON string literal. -/
def jsonStr (s : String) : String :=
  "\"" ++ (s.data.foldl (fun a c => a ++ jsonEscChar c) "") ++ "\""

mutual
/-- `json.dumps` of a value. -/
def jsonDump : JVal → String
  | .str s => jsonStr s
  | .int n => toString n
  | .arr l => "[" ++ jsonDumpList l ++ "]"
  | .obj o => "\x7b" ++ jsonDumpObj o ++ "\x7d"

/-- Comma-joined array elements. -/
def jsonDumpList : JList → String
  | .nil => ""
  | .cons v .nil => jsonDump v
  | .cons v rest => jsonDump v ++ ", " ++ jsonDumpList rest

/-- Comma-joined object entries. -/
def jsonDumpObj : JObj → String
  | .nil => ""
  | .cons k v .nil => jsonStr k ++ ": " ++ jsonDump v
  | .cons k v rest => jsonStr k ++ ": " ++ jsonDump v ++ ", " ++ jsonDumpObj rest
end

/-! ## `__convert`: document level (lines 129-249)

`xmltodict.parse` is an external collaborator; its output shape for the
`<errors>` element is modelled by `ErrorsElem`: `empty` is an `<errors>`
element with no children (xmltodict yields `None`, which is not a `dict`,
so the code answers `"[]"`), `single`/`multiple` are the one-`<error>` and
several-`<error>` shapes that lines 145-148 normalize to a list. -/

/-- Parsed shape of `dict_in["results"]["errors"]`. -/
inductive ErrorsElem where
  | empty : ErrorsElem
  | single : CppcheckError → ErrorsElem
  | multiple : List CppcheckError → ErrorsElem
deriving Repr, DecidableEq

/-- Lines 145-148: wrap a non-list `error` entry into a list. -/
def normalizeErrors : ErrorsElem → List CppcheckError
  | .empty => []
  | .single e => [e]
  | .multiple es => es

/-- `__convert` from the parsed `<errors>` element on: returns the
serialized JSON text and the final value of the template's shared
`location` dict. -/
def convertParsed (fs : FS) (tmplLoc : Location) (elem : ErrorsElem) :
    Except PyErr (Location × String) :=
  match elem with
  | .empty => .ok (tmplLoc, jsonDump (.arr .nil))
  | _ =>
      match convertErrors fs tmplLoc (normalizeErrors elem) with
      | .error e => .error e
      | .ok (tmpl', out) =>
          .ok (tmpl', jsonDump (.arr (jlist (out.map issueJson))))

/-! ## `convert_file` (lines 72-107) -/

/-- The file system `open` sees: a partial map from path to text content
(`none` means `open(path)` raises `FileNotFoundError`). -/
structure FileSys where
  files : String → Option String

/-- `convert_file`.  The XML parser (`xmltodict.parse` inside `__convert`)
is passed in as the collaborator `parse`; `srcFs` is the source-file
system used by `linecache`; `tmplLoc` is the current value of the shared
template `location` dict.  Returns the file system after the call, the
template value after the call, and the outcome.

Faithful to lines 83-107: `fin` starts as `None`; the `try` block opens
and converts; the `finally` block runs `fin.close()` whenever `fin` is not
`sys.stdin` — when `open` itself raised, `fin` is still `None`, so
`None.close()` raises `AttributeError`, which replaces the in-flight
`FileNotFoundError`.  Only after the `try`/`finally` is the output file
opened for writing. -/
def convert_file (parse : String → Except PyErr ErrorsElem) (srcFs : FS)
    (fs : FileSys) (tmplLoc : Location) (fname_in fname_out : String) :
    FileSys × Location × Except PyErr Bool :=
  -- fin = None; try: fin = open(fname_in); json_out = __convert(fin.read())
  let tryResult : Option String × Location × Except PyErr String :=
    match fs.files fname_in with
    | none => (none, tmplLoc, .error .fileNotFoundError)
    | some content =>
        match parse content with
        | .error e => (some content, tmplLoc, .error e)
        | .ok elem =>
            match convertParsed srcFs tmplLoc elem with
            | .error e => (some content, tmplLoc, .error e)
            | .ok (tmpl', js) => (some content, tmpl', .ok js)
  -- finally: if fin is not sys.stdin: fin.close()
  let (finHandle, tmpl', res) := tryResult
  let resAfterFinally : Except PyErr String :=
    match finHandle with
    | none => .error .attributeError
    | some _ => res
  -- with open(fname_out, "w") as f_out: f_out.write(json_out); return True
  match resAfterFinally with
  | .error e => (fs, tmpl', .error e)
  | .ok js =>
      (⟨fun n => if n = fname_out then some js else fs.files n⟩, tmpl', .ok true)

/-! ## Derived descriptions used in theorem statements -/

/-- The primary path the code resolves for a location field: `@file0` of
the first entry when the list form carries one, else `@file`. -/
def primaryPath : LocField → String
  | .single l => l.file
  | .list [] => ""
  | .list (l0 :: _) =>
      match l0.file0 with
      | some f0 => f0
      | none => l0.file

/-- The primary line the code resolves. -/
def primaryLine : LocField → Int
  | .single l => l.line
  | .list [] => -1
  | .list (l0 :: _) => l0.line

/-- The primary column the code resolves (0 when absent in the dict
form). -/
def primaryColumn : LocField → Int
  | .single l => (l.column).getD 0
  | .list [] => -1
  | .list (l0 :: _) => (l0.column).getD 0

/-- The location field shapes the code can process without raising:
the dict form always, the list form only when non-empty with a `@column`
on every entry. -/
def locFieldOk : LocField → Bool
  | .single _ => true
  | .list [] => false
  | .list (l0 :: rest) =>
      (l0.column).isSome && rest.all (fun l => (l.column).isSome)

/-- The primary location value a processed record writes into the shared
template dict (`none` for a record without a `location` key). -/
def primaryLocOf (e : CppcheckError) : Option Location :=
  e.location.map (fun lf => ⟨primaryPath lf, primaryLine lf, primaryColumn lf⟩)

/-- The issue one record yields, as a function of that record (and the
source-file system) alone. -/
def issueOf (fs : FS) (e : CppcheckError) : Option Issue :=
  (convertError fs initTemplateLoc e).toOption.bind Prod.snd

/-- The description string the code emits for a record. -/
def descriptionOf (e : CppcheckError) : String :=
  match e.cwe with
  | some cid => "[CWE-" ++ cid ++ "] " ++ e.msg
  | none => e.msg

/-- The `content.data` string the code emits for a record. -/
def contentOf (e : CppcheckError) : Option String :=
  match e.cwe with
  | some cid =>
      some ("Refer to [CWE-" ++ cid ++ "](https://cwe.mitre.org/data/definitions/"
        ++ cid ++ ".html)")
  | none => none

/-- The `other_locations` value the code emits for a location field. -/
def otherLocsOf : LocField → Option (List Location)
  | .single _ => none
  | .list [] => none
  | .list (_ :: rest) =>
      if rest.isEmpty then none
      else some (rest.map (fun l => ⟨l.file, l.line, (l.column).getD 0⟩))

/-! ## Lemmas: digest length -/

theorem hexBytes_length (l : List Nat) : (hexBytes l).length = 2 * l.length := by
  induction l with
  | nil => rfl
  | cons b rest ih => simp [hexBytes, ih]; ring

theorem md5Bytes_length (msg : List Nat) : (md5Bytes msg).length = 16 := by
  simp [md5Bytes, wordBytes]

theorem md5hex_length (s : String) : (md5hex s).length = 32 := by
  simp [md5hex, String.length, hexBytes_length, md5Bytes_length]

/-! ## Lemmas: location processing -/

theorem processOtherLocs_ok (locs : List XmlLocation)
    (h : locs.all (fun l => (l.column).isSome) = true) (st : Int × Int) :
    ∃ stFin, processOtherLocs st locs =
      .ok (stFin, locs.map (fun l => ⟨l.file, l.line, (l.column).getD 0⟩)) := by
  induction locs generalizing st with
  | nil => exact ⟨st, rfl⟩
  | cons l rest ih =>
      simp only [List.all_cons, Bool.and_eq_true] at h
      obtain ⟨c, hc⟩ := Option.isSome_iff_exists.mp h.1
      obtain ⟨stFin, hFin⟩ := ih h.2 (l.line, c)
      refine ⟨stFin, ?_⟩
      simp [processOtherLocs, hc, hFin]

/-- `processOtherLocs` on a non-empty list never reads the incoming shared
state (every field is overwritten before the snapshot). -/
theorem processOtherLocs_cons_indep (l : XmlLocation) (rest : List XmlLocation)
    (st₁ st₂ : Int × Int) :
    processOtherLocs st₁ (l :: rest) = processOtherLocs st₂ (l :: rest) := by
  simp [processOtherLocs]

/-- `processLocations` never depends on the incoming template state. -/
theorem processLocations_indep (t₁ t₂ : Location) (lf : LocField) :
    processLocations t₁ lf = processLocations t₂ lf := by
  cases lf with
  | single l => rfl
  | list locs =>
      cases locs with
      | nil => rfl
      | cons l0 rest =>
          cases rest with
          | nil => cases h : l0.column <;> simp [processLocations, h, processOtherLocs]
          | cons r rs =>
              cases h : l0.column <;>
                simp [processLocations, h,
                  processOtherLocs_cons_indep r rs (t₁.line, t₁.column) (t₂.line, t₂.column)]

theorem processLocations_ok (tmpl : Location) (lf : LocField)
    (h : locFieldOk lf = true) :
    processLocations tmpl lf =
      .ok (primaryPath lf, primaryLine lf, primaryColumn lf, otherLocsOf lf) := by
  cases lf with
  | single l =>
      cases hc : l.column <;>
        simp [processLocations, primaryPath, primaryLine, primaryColumn, otherLocsOf, hc]
  | list locs =>
      cases locs with
      | nil => simp [locFieldOk] at h
      | cons l0 rest =>
          simp only [locFieldOk, Bool.and_eq_true] at h
          obtain ⟨c, hc⟩ := Option.isSome_iff_exists.mp h.1
          obtain ⟨stFin, hFin⟩ := processOtherLocs_ok rest h.2 (tmpl.line, tmpl.column)
          simp [processLocations, hc, hFin, primaryPath, primaryLine, primaryColumn,
            otherLocsOf]

/-- Whenever `processLocations` succeeds, its output is the derived
primary path/line/column and secondary list. -/
theorem processLocations_ok_char (tmpl : Location) (lf : LocField)
    (p : String) (n c : Int) (o : Option (List Location))
    (h : processLocations tmpl lf = .ok (p, n, c, o)) :
    p = primaryPath lf ∧ n = primaryLine lf ∧ c = primaryColumn lf := by
  cases lf with
  | single l =>
      cases hc : l.column <;>
        · simp [processLocations, hc] at h
          simp [primaryPath, primaryLine, primaryColumn, hc, h.1, h.2.1, h.2.2.1]
  | list locs =>
      cases locs with
      | nil => simp [processLocations] at h
      | cons l0 rest =>
          cases hc : l0.column with
          | none => simp [processLocations, hc] at h
          | some c0 =>
              cases hp : processOtherLocs (tmpl.line, tmpl.column) rest with
              | error e => simp [processLocations, hc, hp] at h
              | ok pr =>
                  simp [processLocations, hc, hp] at h
                  simp [primaryPath, primaryLine, primaryColumn, hc,
                    h.1, h.2.1, h.2.2.1]

/-! ## Lemmas: one-record conversion -/

/-- A record without a `location` key is skipped: no output, no error, no
template write. -/
theorem convertError_skip (fs : FS) (tmpl : Location) (e : CppcheckError)
    (h : e.location = none) : convertError fs tmpl e = .ok (tmpl, none) := by
  simp [convertError, h]

/-- A located record with a severity outside the fixed table raises
`KeyError` (the `map_severity_to_category[...]` lookup). -/
theorem convertError_badsev (fs : FS) (tmpl : Location) (e : CppcheckError)
    (lf : LocField) (h : e.location = some lf)
    (hs : map_severity_to_category e.severity = none) :
    convertError fs tmpl e = .error .keyError := by
  simp [convertError, h, get_codeclimate_category, hs]

/-- Full characterization of a successfully converted record. -/
theorem convertError_ok_eq (fs : FS) (tmpl : Location) (e : CppcheckError)
    (lf : LocField) (cat : String)
    (h : e.location = some lf)
    (hs : map_severity_to_category e.severity = some cat)
    (hl : locFieldOk lf = true) :
    convertError fs tmpl e =
      .ok (⟨primaryPath lf, primaryLine lf, primaryColumn lf⟩, some
        { type := "issue"
          check_name := e.id
          description := descriptionOf e
          categories := pySplitNl cat ++ [e.severity]
          fingerprint := fingerprintOf (primaryPath lf) (primaryLine lf) e.id
            (getline fs (primaryPath lf) (primaryLine lf))
          location := ⟨primaryPath lf, primaryLine lf, primaryColumn lf⟩
          other_locations := otherLocsOf lf
          content := contentOf e }) := by
  simp only [convertError, h, get_codeclimate_category, hs,
    processLocations_ok tmpl lf hl, fingerprintOf, descriptionOf, contentOf]

/-- The issue a record yields does not depend on the incoming value of the
shared template dict. -/
theorem convertError_bind_indep (fs : FS) (t₁ t₂ : Location) (e : CppcheckError) :
    (convertError fs t₁ e).toOption.bind Prod.snd
      = (convertError fs t₂ e).toOption.bind Prod.snd := by
  cases h : e.location with
  | none => simp [convertError, h, Except.toOption]
  | some lf =>
      cases hc : get_codeclimate_category e.severity with
      | error err => simp [convertError, h, hc]
      | ok cat =>
          rw [convertError, convertError]
          simp only [h, hc]
          rw [processLocations_indep t₁ t₂ lf]

/-- The state a successfully processed record leaves in the shared
template dict. -/
theorem convertError_ok_state (fs : FS) (tmpl t : Location) (e : CppcheckError)
    (oi : Option Issue) (h : convertError fs tmpl e = .ok (t, oi)) :
    t = (primaryLocOf e).getD tmpl := by
  cases hl : e.location with
  | none =>
      rw [convertError_skip fs tmpl e hl] at h
      simp only [Except.ok.injEq, Prod.mk.injEq] at h
      simp [primaryLocOf, hl, ← h.1]
  | some lf =>
      cases hc : map_severity_to_category e.severity with
      | none =>
          rw [convertError_badsev fs tmpl e lf hl hc] at h
          simp at h
      | some cat =>
          cases hp : processLocations tmpl lf with
          | error err =>
              simp [convertError, hl, get_codeclimate_category, hc, hp] at h
          | ok r =>
              obtain ⟨p, n, c, o⟩ := r
              obtain ⟨h1, h2, h3⟩ := processLocations_ok_char tmpl lf p n c o hp
              simp [convertError, hl, get_codeclimate_category, hc, hp] at h
              rw [primaryLocOf, hl, ← h.1, h1, h2, h3]
              rfl

/-! ## Lemmas: the conversion loop -/

/-- A record whose locations the code can process without raising: either
no `location` key (skipped) or a well-formed location field. -/
def errLocOk (e : CppcheckError) : Bool :=
  match e.location with
  | none => true
  | some lf => locFieldOk lf

theorem getLast?_cons_getD {α : Type} (xs : List α) :
    ∀ (L d : α), ((L :: xs).getLast?).getD d = (xs.getLast?).getD L := by
  induction xs with
  | nil => intro L d; rfl
  | cons y ys ih =>
      intro L d
      rw [List.getLast?_cons_cons, ih y d, ih y L]

/-- Skipped records leave the conversion run unchanged. -/
theorem convertErrors_cons_skip (fs : FS) (tmpl : Location) (e : CppcheckError)
    (rest : List CppcheckError) (hl : e.location = none) :
    convertErrors fs tmpl (e :: rest) = convertErrors fs tmpl rest := by
  rw [convertErrors, convertError_skip fs tmpl e hl]
  dsimp only
  cases h2 : convertErrors fs tmpl rest with
  | error err => simp [h2]
  | ok r => simp [h2]

/-- A successfully converted record contributes its issue at the head of
the remaining run's output. -/
theorem convertErrors_cons_issue (fs : FS) (tmpl t1 : Location)
    (e : CppcheckError) (rest : List CppcheckError) (i : Issue)
    (h : convertError fs tmpl e = .ok (t1, some i)) :
    convertErrors fs tmpl (e :: rest)
      = (convertErrors fs t1 rest).map (fun r => (r.1, i :: r.2)) := by
  rw [convertErrors, h]
  dsimp only
  cases h2 : convertErrors fs t1 rest with
  | error err => simp [h2, Except.map]
  | ok r => simp [h2, Except.map]

theorem except_map_eq_error {α β γ : Type} (f : α → β) (x : Except γ α) (err : γ) :
    x.map f = .error err ↔ x = .error err := by
  cases x <;> simp [Except.map]

/-- The outputs of a successful conversion run are exactly the per-record
issues, in document order, independent of the incoming template state. -/
theorem convertErrors_ok_out (fs : FS) (tmpl t : Location)
    (errs : List CppcheckError) (out : List Issue)
    (h : convertErrors fs tmpl errs = .ok (t, out)) :
    out = errs.filterMap (issueOf fs) := by
  induction errs generalizing tmpl out t with
  | nil =>
      simp only [convertErrors, Except.ok.injEq, Prod.mk.injEq] at h
      simp [← h.2]
  | cons e rest ih =>
      rw [convertErrors] at h
      split at h
      next err heq => simp at h
      next t1 oi heq =>
        split at h
        next err2 heq2 => simp at h
        next tF out' heq2 =>
          simp only [Except.ok.injEq, Prod.mk.injEq] at h
          have hoi : issueOf fs e = oi := by
            rw [issueOf, convertError_bind_indep fs initTemplateLoc tmpl e, heq]
            rfl
          rw [List.filterMap_cons, hoi, ← ih t1 tF out' heq2, ← h.2]
          cases oi <;> rfl

/-- After a successful conversion run, the shared template `location` dict
holds the primary location of the last record that had one (its initial
value if none did). -/
theorem convertErrors_ok_template (fs : FS) (tmpl t : Location)
    (errs : List CppcheckError) (out : List Issue)
    (h : convertErrors fs tmpl errs = .ok (t, out)) :
    t = ((errs.filterMap primaryLocOf).getLast?).getD tmpl := by
  induction errs generalizing tmpl out t with
  | nil =>
      simp only [convertErrors, Except.ok.injEq, Prod.mk.injEq] at h
      simp [← h.1]
  | cons e rest ih =>
      rw [convertErrors] at h
      split at h
      next err heq => simp at h
      next t1 oi heq =>
        split at h
        next err2 heq2 => simp at h
        next tF out' heq2 =>
          simp only [Except.ok.injEq, Prod.mk.injEq] at h
          have ht1 : t1 = (primaryLocOf e).getD tmpl :=
            convertError_ok_state fs tmpl t1 e oi heq
          rw [List.filterMap_cons, ← h.1]
          cases hp : primaryLocOf e with
          | none =>
              have ht1' : t1 = tmpl := by rw [ht1, hp]; rfl
              rw [← ht1']
              simpa using ih t1 tF out' heq2
          | some L =>
              have ht1' : t1 = L := by rw [ht1, hp]; rfl
              rw [getLast?_cons_getD, ← ht1']
              simpa using ih t1 tF out' heq2

/-- For well-formed locations, a conversion run raises `KeyError` exactly
when some record carrying location information has a severity outside the
fixed table; otherwise it succeeds. -/
theorem convertErrors_keyError_iff (fs : FS) (tmpl : Location)
    (errs : List CppcheckError) (hwf : ∀ e ∈ errs, errLocOk e = true) :
    convertErrors fs tmpl errs = .error .keyError ↔
      ∃ e ∈ errs, e.location.isSome ∧ map_severity_to_category e.severity = none := by
  induction errs generalizing tmpl with
  | nil => simp [convertErrors]
  | cons e rest ih =>
      have hwfe := hwf e (List.mem_cons_self e rest)
      have hwfr : ∀ x ∈ rest, errLocOk x = true :=
        fun x hx => hwf x (List.mem_cons_of_mem e hx)
      have hexists : (∃ x ∈ rest, x.location.isSome = true
            ∧ map_severity_to_category x.severity = none) →
          ∃ x ∈ e :: rest, x.location.isSome = true
            ∧ map_severity_to_category x.severity = none :=
        fun ⟨x, hx, hPx⟩ => ⟨x, List.mem_cons_of_mem e hx, hPx⟩
      cases hl : e.location with
      | none =>
          rw [convertErrors_cons_skip fs tmpl e rest hl, ih tmpl hwfr]
          constructor
          · exact hexists
          · intro ⟨x, hx, hPx⟩
            cases List.mem_cons.mp hx with
            | inl hxe => rw [hxe, hl] at hPx; simp at hPx
            | inr hxr => exact ⟨x, hxr, hPx⟩
      | some lf =>
          cases hc : map_severity_to_category e.severity with
          | none =>
              rw [convertErrors, convertError_badsev fs tmpl e lf hl hc]
              simp only [true_iff]
              exact ⟨e, List.mem_cons_self e rest, by simp [hl], hc⟩
          | some cat =>
              have hlf : locFieldOk lf = true := by
                rw [errLocOk, hl] at hwfe; exact hwfe
              obtain ⟨t1, i, hok⟩ : ∃ t1 i, convertError fs tmpl e = .ok (t1, some i) :=
                ⟨_, _, convertError_ok_eq fs tmpl e lf cat hl hc hlf⟩
              rw [convertErrors_cons_issue fs tmpl t1 e rest i hok,
                except_map_eq_error, ih t1 hwfr]
              constructor
              · exact hexists
              · intro ⟨x, hx, hPx⟩
                cases List.mem_cons.mp hx with
                | inl hxe => rw [hxe, hc] at hPx; simp at hPx
                | inr hxr => exact ⟨x, hxr, hPx⟩

/-! ## Lemmas: line lookup and fingerprints -/

/-- `linecache.getline` answers `""` when the file is unreadable or the
requested line exceeds the file's line count. -/
theorem getline_degraded (fs : FS) (path : String) (line : Int)
    (h : fs path = none ∨ ∃ ls, fs path = some ls ∧ (ls.length : Int) < line) :
    getline fs path line = "" := by
  cases h with
  | inl h1 => simp [getline, h1]
  | inr h2 =>
      obtain ⟨ls, hls, hlen⟩ := h2
      simp only [getline, hls]
      rw [if_neg]
      omega

/-- The fingerprint of a successfully converted record is the MD5 of the
composite of primary path, rounded line, rule id, and stripped source
line. -/
theorem convertError_fingerprint (fs : FS) (tmpl : Location) (e : CppcheckError)
    (lf : LocField)
    (hloc : e.location = some lf)
    (hsev : (map_severity_to_category e.severity).isSome = true)
    (hlf : locFieldOk lf = true) :
    ((convertError fs tmpl e).toOption.bind Prod.snd).map Issue.fingerprint
      = some (fingerprintOf (primaryPath lf) (primaryLine lf) e.id
          (getline fs (primaryPath lf) (primaryLine lf))) := by
  obtain ⟨cat, hc⟩ := Option.isSome_iff_exists.mp hsev
  rw [convertError_ok_eq fs tmpl e lf cat hloc hc hlf]
  rfl

/-! ## Concrete inputs used by witnesses and counterexamples

These mirror the XML snippets of the repository's own test suite
(`tests/test_cppcheck_codeclimate.py`). -/

/-- A file system in which no source file is readable. -/
def emptyFS : FS := fun _ => none

/-- A small readable source file `a.cpp`. -/
def sampleFS : FS :=
  fun p => if p = "a.cpp" then some ["line one", "  int x;  ", "last"] else none

/-- A four-line source file, as in `tests/cpp_src/four_lines.c`. -/
def fourLinesFS : FS :=
  fun p =>
    if p = "tests/cpp_src/four_lines.c" then
      some ["int main(void)", "\x7b", "  return 0;", "\x7d"]
    else none

/-- The record of `test_convert_severity_warning`:
severity `warning`, CWE present, one location with a column. -/
def sampleErr : CppcheckError :=
  ⟨"uninitMemberVar", "warning", "Ur c0de suks", some "123456789",
   some (.single ⟨"tests/cpp_src/bad_code_1.cpp", none, 50, some 5⟩)⟩

/-- A small single-location record over `a.cpp` line 2, column 5. -/
def smallErr : CppcheckError :=
  ⟨"uninitMemberVar", "warning", "msg", none,
   some (.single ⟨"a.cpp", none, 2, some 5⟩)⟩

/-- The issue `smallErr` converts to under `sampleFS`
(`"a.cpp:10-uninitMemberVar-int x;"` hashes to the fingerprint below). -/
def smallIssue : Issue :=
  ⟨"issue", "uninitMemberVar", "msg", ["Bug Risk", "warning"],
   "9f30b580663bf8cfa9ebdb02cb093cf0", ⟨"a.cpp", 2, 5⟩, none, none⟩

/-- The record of `test_convert_location_file0`: a single location carrying
both `file0` and `file`. -/
def file0SingleErr : CppcheckError :=
  ⟨"cppCheckType", "error", "message", none,
   some (.single ⟨"tests/cpp_src/Foo.h", some "tests/cpp_src/Foo.cpp", 3, none⟩)⟩

/-- The record of `test_source_line_extractor_file0`: two locations, each
carrying `file0` and `file`. -/
def file0MultiErr : CppcheckError :=
  ⟨"id", "error", "msg", none,
   some (.list
     [⟨"tests/cpp_src/Foo.h", some "tests/cpp_src/four_lines.c", 15, some 0⟩,
      ⟨"tests/cpp_src/Foo.h", some "tests/cpp_src/four_lines.c", 17, some 0⟩])⟩

/-- The record of `test_convert_multiple_locations`: three locations, the
first two without a `column` attribute. -/
def multiLocNoColumnErr : CppcheckError :=
  ⟨"cppCheckType", "error", "message", none,
   some (.list
     [⟨"tests/cpp_src/Foo.h", none, 1, none⟩,
      ⟨"tests/cpp_src/Foo.h", none, 2, none⟩,
      ⟨"tests/cpp_src/Foo.h", none, 3, some 3⟩])⟩

/-- The record of `test_convert_no_loc_column`: one location without a
`column` attribute. -/
def singleLocNoColumnErr : CppcheckError :=
  ⟨"uninitMemberVar", "error", "message", none,
   some (.single ⟨"tests/cpp_src/bad_code_1.cpp", none, 3, none⟩)⟩

/-- A located record with an unknown severity string. -/
def badSevErr : CppcheckError :=
  ⟨"someId", "bogus", "m", none, some (.single ⟨"f.c", none, 1, some 0⟩)⟩

/-- A record with an unknown severity string and no location key. -/
def noLocBadSevErr : CppcheckError := ⟨"id", "bogus", "msg", none, none⟩

/-- The record of `test_source_line_extractor_longer_than_file`: line 5 of
a four-line file. -/
def outOfRangeErr : CppcheckError :=
  ⟨"id", "error", "msg", none,
   some (.single ⟨"tests/cpp_src/four_lines.c", none, 5, some 0⟩)⟩

/-! ## Claim theorems -/

/-- C1: for every converted error record with resolved primary path `p`,
line `n`, rule id `r` and source-line text `s`, the emitted fingerprint is
the lowercase-hex MD5 (a fixed 128-bit digest) of the composite string of
`p`, `n` rounded up to the nearest multiple of 10, `r`, and `s` stripped
of surrounding whitespace; it is a 32-character string, and any two
records with identical components receive identical fingerprints. -/
theorem fingerprint_is_md5_of_components (fs : FS) (tmpl : Location)
    (e : CppcheckError) (lf : LocField)
    (hloc : e.location = some lf)
    (hsev : (map_severity_to_category e.severity).isSome = true)
    (hlf : locFieldOk lf = true) :
    (((convertError fs tmpl e).toOption.bind Prod.snd).map Issue.fingerprint
        = some (md5hex (primaryPath lf ++ ":" ++ toString (ceil10 (primaryLine lf))
            ++ "-" ++ e.id ++ "-"
            ++ pyStrip (getline fs (primaryPath lf) (primaryLine lf)))))
    ∧ (md5hex (primaryPath lf ++ ":" ++ toString (ceil10 (primaryLine lf))
          ++ "-" ++ e.id ++ "-"
          ++ pyStrip (getline fs (primaryPath lf) (primaryLine lf)))).length = 32
    ∧ (∀ (fs' : FS) (tmpl' : Location) (e' : CppcheckError) (lf' : LocField),
        e'.location = some lf' →
        (map_severity_to_category e'.severity).isSome = true →
        locFieldOk lf' = true →
        primaryPath lf' = primaryPath lf →
        primaryLine lf' = primaryLine lf →
        e'.id = e.id →
        pyStrip (getline fs' (primaryPath lf') (primaryLine lf'))
          = pyStrip (getline fs (primaryPath lf) (primaryLine lf)) →
        ((convertError fs' tmpl' e').toOption.bind Prod.snd).map Issue.fingerprint
          = ((convertError fs tmpl e).toOption.bind Prod.snd).map Issue.fingerprint) := by
  have h1 := convertError_fingerprint fs tmpl e lf hloc hsev hlf
  rw [fingerprintOf] at h1
  refine ⟨h1, md5hex_length _, ?_⟩
  intro fs' tmpl' e' lf' hloc' hsev' hlf' hp hn hid hs
  have h2 := convertError_fingerprint fs' tmpl' e' lf' hloc' hsev' hlf'
  rw [fingerprintOf] at h2
  rw [hp, hn] at hs
  rw [h1, h2, hp, hn, hid, hs]

/-- C1 witness: the fingerprint equation instantiated at a concrete record
over a concrete readable file. -/
theorem fingerprint_is_md5_of_components_witness :
    (((convertError sampleFS initTemplateLoc smallErr).toOption.bind Prod.snd).map
          Issue.fingerprint
        = some (md5hex (primaryPath (.single ⟨"a.cpp", none, 2, some 5⟩)
            ++ ":" ++ toString (ceil10 (primaryLine (.single ⟨"a.cpp", none, 2, some 5⟩)))
            ++ "-" ++ smallErr.id ++ "-"
            ++ pyStrip (getline sampleFS
                (primaryPath (.single ⟨"a.cpp", none, 2, some 5⟩))
                (primaryLine (.single ⟨"a.cpp", none, 2, some 5⟩))))))
    ∧ (md5hex (primaryPath (.single ⟨"a.cpp", none, 2, some 5⟩)
          ++ ":" ++ toString (ceil10 (primaryLine (.single ⟨"a.cpp", none, 2, some 5⟩)))
          ++ "-" ++ smallErr.id ++ "-"
          ++ pyStrip (getline sampleFS
              (primaryPath (.single ⟨"a.cpp", none, 2, some 5⟩))
              (primaryLine (.single ⟨"a.cpp", none, 2, some 5⟩))))).length = 32
    ∧ (∀ (fs' : FS) (tmpl' : Location) (e' : CppcheckError) (lf' : LocField),
        e'.location = some lf' →
        (map_severity_to_category e'.severity).isSome = true →
        locFieldOk lf' = true →
        primaryPath lf' = primaryPath (.single ⟨"a.cpp", none, 2, some 5⟩) →
        primaryLine lf' = primaryLine (.single ⟨"a.cpp", none, 2, some 5⟩) →
        e'.id = smallErr.id →
        pyStrip (getline fs' (primaryPath lf') (primaryLine lf'))
          = pyStrip (getline sampleFS
              (primaryPath (.single ⟨"a.cpp", none, 2, some 5⟩))
              (primaryLine (.single ⟨"a.cpp", none, 2, some 5⟩))) →
        ((convertError fs' tmpl' e').toOption.bind Prod.snd).map Issue.fingerprint
          = ((convertError sampleFS initTemplateLoc smallErr).toOption.bind
              Prod.snd).map Issue.fingerprint) :=
  fingerprint_is_md5_of_components sampleFS initTemplateLoc smallErr
    (.single ⟨"a.cpp", none, 2, some 5⟩) rfl (by decide) (by decide)

/-- C2 (code bug): the issue emitted for the record of
`test_convert_severity_warning` carries no `severity` key at all, while
the spec and the repository's own tests require `severity = "major"`
there. -/
theorem no_severity_field_emitted :
    ((convertError emptyFS initTemplateLoc sampleErr).toOption.bind Prod.snd).map
        issueKeys
      = some ["type", "check_name", "description", "categories", "fingerprint",
              "location", "content"]
    ∧ "severity" ∉ ["type", "check_name", "description", "categories",
              "fingerprint", "location", "content"] := by
  exact ⟨rfl, by decide⟩

/-- C3 (amended): the severity-to-category table is total and
deterministic on the closed six-string set with the stated values, and —
for inputs whose location fields are well-formed — the conversion raises a
lookup failure (Python `KeyError`; there is no `MappingError` class)
exactly when some record that carries a `location` key has a severity
outside that set.  Records without a `location` key are skipped before the
severity lookup and never raise. -/
theorem severity_category_mapping_and_raises :
    (map_severity_to_category "error" = some "Bug Risk"
      ∧ map_severity_to_category "warning" = some "Bug Risk"
      ∧ map_severity_to_category "style" = some "Style"
      ∧ map_severity_to_category "performance" = some "Performance"
      ∧ map_severity_to_category "portability" = some "Compatibility"
      ∧ map_severity_to_category "information" = some "Style")
    ∧ ∀ (fs : FS) (tmpl : Location) (errs : List CppcheckError),
        (∀ e ∈ errs, errLocOk e = true) →
        (convertErrors fs tmpl errs = .error .keyError ↔
          ∃ e ∈ errs, e.location.isSome
            ∧ map_severity_to_category e.severity = none) :=
  ⟨⟨rfl, rfl, rfl, rfl, rfl, rfl⟩, convertErrors_keyError_iff⟩

/-- C3 witness: a located record with severity `bogus` makes the whole
conversion raise `KeyError`. -/
theorem severity_category_mapping_and_raises_witness :
    convertErrors emptyFS initTemplateLoc [badSevErr] = .error .keyError :=
  (severity_category_mapping_and_raises.2 emptyFS initTemplateLoc [badSevErr]
    (by decide)).mpr ⟨badSevErr, by decide, by decide, by decide⟩

/-- C3 counterexample: a record whose severity lies outside the closed set
but which carries no location is skipped, and the conversion succeeds —
refuting the claimed raises-iff as stated. -/
theorem severity_raises_iff_counterexample :
    (∃ e ∈ [noLocBadSevErr], map_severity_to_category e.severity = none)
    ∧ convertErrors emptyFS initTemplateLoc [noLocBadSevErr]
        = .ok (initTemplateLoc, []) :=
  ⟨⟨noLocBadSevErr, by decide, by decide⟩, rfl⟩

/-- C4 (amended): only in the several-locations form does a `file0` marker
on the first location become the primary path; a single-location record
uses the reported `file` attribute even when `file0` is present; and the
description is never annotated with any file path — it is the message,
optionally prefixed with the CWE tag. -/
theorem file0_handling (fs : FS) (tmpl : Location) (e : CppcheckError) :
    (∀ (l0 : XmlLocation) (rest : List XmlLocation) (f0 : String),
      e.location = some (.list (l0 :: rest)) → l0.file0 = some f0 →
      (map_severity_to_category e.severity).isSome = true →
      locFieldOk (.list (l0 :: rest)) = true →
      ((convertError fs tmpl e).toOption.bind Prod.snd).map
          (fun i => i.location.path) = some f0)
    ∧ (∀ (l : XmlLocation),
      e.location = some (.single l) →
      (map_severity_to_category e.severity).isSome = true →
      ((convertError fs tmpl e).toOption.bind Prod.snd).map
          (fun i => i.location.path) = some l.file)
    ∧ (∀ (lf : LocField),
      e.location = some lf →
      (map_severity_to_category e.severity).isSome = true →
      locFieldOk lf = true →
      ((convertError fs tmpl e).toOption.bind Prod.snd).map Issue.description
        = some (descriptionOf e)) := by
  refine ⟨?_, ?_, ?_⟩
  · intro l0 rest f0 hloc hf0 hsev hlf
    obtain ⟨cat, hc⟩ := Option.isSome_iff_exists.mp hsev
    rw [convertError_ok_eq fs tmpl e _ cat hloc hc hlf]
    simp only [primaryPath, hf0]
    rfl
  · intro l hloc hsev
    obtain ⟨cat, hc⟩ := Option.isSome_iff_exists.mp hsev
    rw [convertError_ok_eq fs tmpl e _ cat hloc hc rfl]
    simp only [primaryPath]
    rfl
  · intro lf hloc hsev hlf
    obtain ⟨cat, hc⟩ := Option.isSome_iff_exists.mp hsev
    rw [convertError_ok_eq fs tmpl e lf cat hloc hc hlf]
    rfl

/-- C4 witness: the amended behavior at the two-location `file0` record of
`test_source_line_extractor_file0` and at the single-location `file0`
record of `test_convert_location_file0`. -/
theorem file0_handling_witness :
    (((convertError emptyFS initTemplateLoc file0MultiErr).toOption.bind
        Prod.snd).map (fun i => i.location.path)
      = some "tests/cpp_src/four_lines.c")
    ∧ (((convertError emptyFS initTemplateLoc file0SingleErr).toOption.bind
        Prod.snd).map (fun i => i.location.path)
      = some "tests/cpp_src/Foo.h") :=
  ⟨(file0_handling emptyFS initTemplateLoc file0MultiErr).1
      ⟨"tests/cpp_src/Foo.h", some "tests/cpp_src/four_lines.c", 15, some 0⟩
      [⟨"tests/cpp_src/Foo.h", some "tests/cpp_src/four_lines.c", 17, some 0⟩]
      "tests/cpp_src/four_lines.c" rfl rfl (by decide) (by decide),
   (file0_handling emptyFS initTemplateLoc file0SingleErr).2.1
      ⟨"tests/cpp_src/Foo.h", some "tests/cpp_src/Foo.cpp", 3, none⟩
      rfl (by decide)⟩

/-- C4 counterexample: for the single-location record of
`test_convert_location_file0` (which carries `file0`), the emitted primary
path is the reported `file` attribute, not the `file0` path, and the
description does not contain the reported file path — refuting both parts
of the claim as stated. -/
theorem file0_claim_counterexample :
    ((convertError emptyFS initTemplateLoc file0SingleErr).toOption.bind Prod.snd).map
        (fun i => (i.location.path, strContains i.description "tests/cpp_src/Foo.h"))
      = some ("tests/cpp_src/Foo.h", false)
    ∧ ("tests/cpp_src/Foo.h" : String) ≠ "tests/cpp_src/Foo.cpp" :=
  ⟨rfl, by decide⟩

/-- C5 (code bug): the emitted `check_name` is the bare rule id, never the
namespaced `cppcheck[<id>]` form the spec and the repository's tests
require. -/
theorem check_name_is_bare_rule_id :
    ((convertError emptyFS initTemplateLoc sampleErr).toOption.bind Prod.snd).map
        Issue.check_name
      = some "uninitMemberVar"
    ∧ ("uninitMemberVar" : String) ≠ "cppcheck[uninitMemberVar]" :=
  ⟨rfl, by decide⟩

/-- C6 (code bug): an absent `column` attribute defaults to 0 only in the
single-location form; in the several-locations form — here the record of
the repository's own `test_convert_multiple_locations`, whose first two
locations carry no `column` — the conversion raises `KeyError` instead of
defaulting, contradicting the claim and that test. -/
theorem missing_column_behavior :
    (((convertError emptyFS initTemplateLoc singleLocNoColumnErr).toOption.bind
        Prod.snd).map (fun i => i.location.column) = some 0)
    ∧ convertError emptyFS initTemplateLoc multiLocNoColumnErr
        = .error .keyError
    ∧ convertErrors emptyFS initTemplateLoc [multiLocNoColumnErr]
        = .error .keyError :=
  ⟨rfl, rfl, rfl⟩

/-- C7 (code bug): at the record of
`test_source_line_extractor_longer_than_file` — line 5 of the four-line
file — the line lookup degrades: the file has 4 lines, `getline` answers
`""`, the record still converts (no hard failure) and its fingerprint is
the valid 32-character digest computed with the empty source-line-text
component.  The warning the claim requires is, however, never logged: the
degraded path of the source (line 228) is a bare
`linecache.getline(path, line).strip()` with no `log.warning` call (the
only logging in lines 228-242 is `log.debug`), which is also why that
test, asserting `WARNING` in the captured log, fails on this code. -/
theorem degraded_lookup_succeeds_without_warning :
    ((fourLinesFS "tests/cpp_src/four_lines.c").map List.length = some 4)
    ∧ getline fourLinesFS "tests/cpp_src/four_lines.c" 5 = ""
    ∧ ((convertError fourLinesFS initTemplateLoc outOfRangeErr).toOption.bind
          Prod.snd).map Issue.fingerprint
        = some (fingerprintOf "tests/cpp_src/four_lines.c" 5 outOfRangeErr.id "")
    ∧ ((convertError fourLinesFS initTemplateLoc outOfRangeErr).toOption.bind
          Prod.snd).isSome = true
    ∧ (fingerprintOf "tests/cpp_src/four_lines.c" 5 outOfRangeErr.id "").length
        = 32 := by
  have h1 := convertError_fingerprint fourLinesFS initTemplateLoc outOfRangeErr
    (.single ⟨"tests/cpp_src/four_lines.c", none, 5, some 0⟩) rfl (by decide)
    (by decide)
  exact ⟨rfl, rfl, h1, rfl, md5hex_length _⟩

/-- C8 counterexample: converting one located record leaves the
module-level template's shared nested `location` dict holding that
record's primary path/line/column, not its initial value — module state
before and after the call differs. -/
theorem template_mutated_counterexample :
    (convertErrors sampleFS initTemplateLoc [smallErr]).toOption.map Prod.fst
      = some (⟨"a.cpp", 2, 5⟩ : Location)
    ∧ (⟨"a.cpp", 2, 5⟩ : Location) ≠ initTemplateLoc :=
  ⟨rfl, by decide⟩

/-- C8 (amended): a conversion call does mutate module state — the nested
`location`/`positions` dicts of the module-level template, which the
shallow `dict(...)` copies alias: after a successful run they hold the
primary location of the last record that carried one (the template's
top-level fields and the produced output are unaffected). -/
theorem template_location_after_conversion (fs : FS) (tmpl t : Location)
    (errs : List CppcheckError)
    (h : (convertErrors fs tmpl errs).toOption.map Prod.fst = some t) :
    t = ((errs.filterMap primaryLocOf).getLast?).getD tmpl := by
  cases hc : convertErrors fs tmpl errs with
  | error err => rw [hc] at h; simp [Except.toOption] at h
  | ok r =>
      rw [hc] at h
      simp only [Except.toOption] at h
      simp at h
      subst h
      exact convertErrors_ok_template fs tmpl r.1 errs r.2 (by rw [hc])

/-- C8 witness: the mutation equation instantiated at one concrete
record. -/
theorem template_location_after_conversion_witness :
    (⟨"a.cpp", 2, 5⟩ : Location)
      = (([smallErr].filterMap primaryLocOf).getLast?).getD initTemplateLoc :=
  template_location_after_conversion sampleFS initTemplateLoc
    ⟨"a.cpp", 2, 5⟩ [smallErr] rfl

/-- C9: every appended output element is a deep-copied snapshot — the
output sequence of a successful run equals, in document order, the list of
per-record issues, each a pure function of its own record (independent of
the shared template state and of every other record), so processing later
records never alters an earlier output element. -/
theorem outputs_are_per_record_snapshots (fs : FS) (tmpl : Location)
    (errs : List CppcheckError) (out : List Issue)
    (h : (convertErrors fs tmpl errs).toOption.map Prod.snd = some out) :
    out = errs.filterMap (issueOf fs) := by
  cases hc : convertErrors fs tmpl errs with
  | error err => rw [hc] at h; simp [Except.toOption] at h
  | ok r =>
      rw [hc] at h
      simp only [Except.toOption] at h
      simp at h
      subst h
      exact convertErrors_ok_out fs tmpl r.1 errs r.2 (by rw [hc])

set_option maxRecDepth 100000 in
/-- C9 witness: the snapshot equation instantiated at one concrete record
whose full converted issue (fingerprint included) is evaluated. -/
theorem outputs_are_per_record_snapshots_witness :
    [smallIssue] = [smallErr].filterMap (issueOf sampleFS) :=
  outputs_are_per_record_snapshots sampleFS initTemplateLoc [smallErr]
    [smallIssue] (by decide)

/-- C10: when the input path cannot be opened, `convert_file` fails before
the output file is created or written — the file system is returned
unchanged — and the exception that escapes is the `AttributeError` raised
by `fin.close()` in the cleanup branch (where `fin` is still `None`),
replacing the original `FileNotFoundError`. -/
theorem convert_file_open_failure (parse : String → Except PyErr ErrorsElem)
    (srcFs : FS) (fs : FileSys) (tmplLoc : Location) (fname_in fname_out : String)
    (h : fs.files fname_in = none) :
    convert_file parse srcFs fs tmplLoc fname_in fname_out
      = (fs, tmplLoc, .error .attributeError) := by
  simp [convert_file, h]

/-- C10 witness: the failure equation at a concrete empty file system. -/
theorem convert_file_open_failure_witness :
    convert_file (fun _ => Except.ok ErrorsElem.empty) emptyFS ⟨fun _ => none⟩
        initTemplateLoc "cppcheck.xml" "cppcheck.json"
      = (⟨fun _ => none⟩, initTemplateLoc, .error .attributeError) :=
  convert_file_open_failure (fun _ => Except.ok ErrorsElem.empty) emptyFS
    ⟨fun _ => none⟩ initTemplateLoc "cppcheck.xml" "cppcheck.json" rfl

end CppcheckCQ
